import Mathlib

set_option maxRecDepth 100000
set_option maxHeartbeats 2000000

/-!
# Verification of the petfriendlyvet.com license tooling

Shallow embedding of the two Rust binaries:

* `src/rust/pfv-license/src/bin/generate.rs` — the license generator
  (namespace `Gen` below), and
* `src/rust/scc-license/src/main.rs` — the license validator
  (namespace `Val` below),

together with models of the external crates they use at the granularity the
code exercises them: SHA-256 (`sha2`), hex encoding (`hex`), standard base64
(`base64`), JSON text (`serde_json`), and RFC 3339 timestamps (`chrono`,
modelled at second granularity).

Bytes are `List Nat` (each entry a byte value); Rust `String`s that only flow
through equality checks and hashing are kept as their byte lists.
-/

namespace Bytes

/-- Byte list of an ASCII string literal (all our concrete strings are ASCII,
where Unicode code points coincide with UTF-8 bytes). -/
def ascii (s : String) : List Nat := s.data.map Char.toNat

end Bytes

namespace Sha256

/-- Truncate to a 32-bit word. -/
def w32 (n : Nat) : Nat := n % 4294967296

/-- Rotate a 32-bit word right by `n` bit positions. -/
def rotr (x n : Nat) : Nat := w32 ((x >>> n) ||| (x <<< (32 - n)))

def ch (e f g : Nat) : Nat := (e &&& f) ^^^ ((e ^^^ 4294967295) &&& g)

def maj (a b c : Nat) : Nat := (a &&& b) ^^^ (a &&& c) ^^^ (b &&& c)

def bigSigma0 (x : Nat) : Nat := rotr x 2 ^^^ rotr x 13 ^^^ rotr x 22

def bigSigma1 (x : Nat) : Nat := rotr x 6 ^^^ rotr x 11 ^^^ rotr x 25

def smallSigma0 (x : Nat) : Nat := rotr x 7 ^^^ rotr x 18 ^^^ (x >>> 3)

def smallSigma1 (x : Nat) : Nat := rotr x 17 ^^^ rotr x 19 ^^^ (x >>> 10)

/-- The 64 round constants of SHA-256 (FIPS 180-4), written in decimal. -/
def K : List Nat :=
  [1116352408, 1899447441, 3049323471, 3921009573, 961987163,
   1508970993, 2453635748, 2870763221, 3624381080, 310598401,
   607225278, 1426881987, 1925078388, 2162078206, 2614888103,
   3248222580, 3835390401, 4022224774, 264347078, 604807628,
   770255983, 1249150122, 1555081692, 1996064986, 2554220882,
   2821834349, 2952996808, 3210313671, 3336571891, 3584528711,
   113926993, 338241895, 666307205, 773529912, 1294757372,
   1396182291, 1695183700, 1986661051, 2177026350, 2456956037,
   2730485921, 2820302411, 3259730800, 3345764771, 3516065817,
   3600352804, 4094571909, 275423344, 430227734, 506948616,
   659060556, 883997877, 958139571, 1322822218, 1537002063,
   1747873779, 1955562222, 2024104815, 2227730452, 2361852424,
   2428436474, 2756734187, 3204031479, 3329325298]

/-- The initial hash state of SHA-256 (FIPS 180-4), written in decimal. -/
def H0 : List Nat :=
  [1779033703, 3144134277, 1013904242, 2773480762,
   1359893119, 2600822924, 528734635, 1541459225]

/-- Big-endian 8-byte encoding of a length in bits. -/
def be64 (n : Nat) : List Nat :=
  [(n >>> 56) % 256, (n >>> 48) % 256, (n >>> 40) % 256, (n >>> 32) % 256,
   (n >>> 24) % 256, (n >>> 16) % 256, (n >>> 8) % 256, n % 256]

/-- Big-endian 4-byte encoding of a 32-bit word. -/
def be32 (n : Nat) : List Nat :=
  [(n >>> 24) % 256, (n >>> 16) % 256, (n >>> 8) % 256, n % 256]

/-- SHA-256 padding: append `0x80`, zeros to 56 mod 64, then the bit length. -/
def padMessage (msg : List Nat) : List Nat :=
  let len := msg.length
  let zeros := (119 - len % 64) % 64
  msg ++ [0x80] ++ List.replicate zeros 0 ++ be64 (len * 8)

/-- Bytes to big-endian 32-bit words, four at a time. -/
def group4 : List Nat → List Nat
  | a :: b :: c :: d :: rest =>
      (a * 16777216 + b * 65536 + c * 256 + d) :: group4 rest
  | _ => []

/-- Words grouped into 16-word blocks. -/
def group16 : List Nat → List (List Nat)
  | w0 :: w1 :: w2 :: w3 :: w4 :: w5 :: w6 :: w7 ::
    w8 :: w9 :: w10 :: w11 :: w12 :: w13 :: w14 :: w15 :: rest =>
      [w0, w1, w2, w3, w4, w5, w6, w7, w8, w9, w10, w11, w12, w13, w14, w15]
        :: group16 rest
  | _ => []

/-- Extend the message schedule, keeping the words most-recent-first. -/
def extendRev : List Nat → Nat → List Nat
  | rev, 0 => rev
  | rev, k + 1 =>
      let w := w32 (smallSigma1 (rev.getD 1 0) + rev.getD 6 0 +
                    smallSigma0 (rev.getD 14 0) + rev.getD 15 0)
      extendRev (w :: rev) k

/-- The 64-entry message schedule of a 16-word block. -/
def msgSchedule (block : List Nat) : List Nat :=
  (extendRev block.reverse 48).reverse

/-- One compression round, on the 8-word working state. -/
def roundFn (st : List Nat) (kw : Nat × Nat) : List Nat :=
  match st with
  | [a, b, c, d, e, f, g, h] =>
      let t1 := w32 (h + bigSigma1 e + ch e f g + kw.1 + kw.2)
      let t2 := w32 (bigSigma0 a + maj a b c)
      [w32 (t1 + t2), a, b, c, w32 (d + t1), e, f, g]
  | other => other

/-- Compress one 16-word block into the running hash state. -/
def compressBlock (h : List Nat) (block : List Nat) : List Nat :=
  let st := (K.zip (msgSchedule block)).foldl roundFn h
  (h.zip st).map (fun p => w32 (p.1 + p.2))

/-- SHA-256 of a byte list, as the 32 digest bytes. -/
def sha256 (msg : List Nat) : List Nat :=
  let blocks := group16 (group4 (padMessage msg))
  (blocks.foldl compressBlock H0).flatMap be32

end Sha256

namespace Hex

/-- Lowercase hex digit, as a byte. -/
def hexDigit (n : Nat) : Nat := if n < 10 then 48 + n else 87 + n

/-- Lowercase hex encoding of a byte list (the `hex::encode` of the code),
as the byte list of the hex string. -/
def hexEncode (bs : List Nat) : List Nat :=
  bs.flatMap (fun b => [hexDigit (b / 16), hexDigit (b % 16)])

end Hex

namespace Base64

/-!
Standard-alphabet base64 with `=` padding, the
`base64::engine::general_purpose::STANDARD` engine of the code: encoding is
total; decoding is strict (canonical padding, zero trailing bits, no
non-alphabet bytes), returning `none` on any violation.
-/

/-- The standard-alphabet character (as a byte) of a 6-bit value. -/
def b64Char (n : Nat) : Nat :=
  if n < 26 then 65 + n
  else if n < 52 then 97 + (n - 26)
  else if n < 62 then 48 + (n - 52)
  else if n = 62 then 43
  else 47

/-- The 6-bit value of an alphabet byte, `none` off the alphabet. -/
def b64Value (c : Nat) : Option Nat :=
  if 65 ≤ c ∧ c ≤ 90 then some (c - 65)
  else if 97 ≤ c ∧ c ≤ 122 then some (c - 71)
  else if 48 ≤ c ∧ c ≤ 57 then some (c + 4)
  else if c = 43 then some 62
  else if c = 47 then some 63
  else none

/-- Base64-encode a byte list, producing the byte list of the encoded text. -/
def base64Encode : List Nat → List Nat
  | a :: b :: c :: rest =>
      let n := a * 65536 + b * 256 + c
      b64Char (n >>> 18) :: b64Char ((n >>> 12) % 64) ::
        b64Char ((n >>> 6) % 64) :: b64Char (n % 64) :: base64Encode rest
  | [a, b] =>
      let n := a * 1024 + b * 4
      [b64Char (n >>> 12), b64Char ((n >>> 6) % 64), b64Char (n % 64), 61]
  | [a] =>
      let n := a * 16
      [b64Char (n >>> 6), b64Char (n % 64), 61, 61]
  | [] => []

/-- Strict base64 decode of the byte list of an encoded text. -/
def base64Decode : List Nat → Option (List Nat)
  | [] => some []
  | [c1, c2, 61, 61] =>
      match b64Value c1, b64Value c2 with
      | some v1, some v2 =>
          let n := v1 * 64 + v2
          if n % 16 = 0 then some [n >>> 4] else none
      | _, _ => none
  | [c1, c2, c3, 61] =>
      match b64Value c1, b64Value c2, b64Value c3 with
      | some v1, some v2, some v3 =>
          let n := v1 * 4096 + v2 * 64 + v3
          if n % 4 = 0 then some [n >>> 10, (n >>> 2) % 256] else none
      | _, _, _ => none
  | c1 :: c2 :: c3 :: c4 :: rest =>
      match b64Value c1, b64Value c2, b64Value c3, b64Value c4 with
      | some v1, some v2, some v3, some v4 =>
          let n := v1 * 262144 + v2 * 4096 + v3 * 64 + v4
          match base64Decode rest with
          | some tail => some ([n >>> 16, (n >>> 8) % 256, n % 256] ++ tail)
          | none => none
      | _, _, _, _ => none
  | _ => none

end Base64

/-!
## JSON

A model of the `serde_json` data model and text syntax at the granularity the
code exercises it: objects, arrays, strings with the common escapes, integer
numbers, booleans and null.  Not modelled (never produced by the generator and
never needed by any claim): `\uXXXX` escapes, fractional/exponent number
forms, and serde's duplicate-key rejection (lookup here is first-match).
-/

inductive Json where
  | null : Json
  | bool : Bool → Json
  | num : Int → Json
  | str : List Nat → Json
  | arr : List Json → Json
  | obj : List (List Nat × Json) → Json

namespace Json

/-- JSON whitespace. -/
def isWs (c : Nat) : Bool := c = 32 || c = 9 || c = 10 || c = 13

def skipWs : List Nat → List Nat
  | c :: rest => if isWs c then skipWs rest else c :: rest
  | [] => []

/-- The byte an escape character stands for (`\uXXXX` is outside the model). -/
def escChar (c : Nat) : Option Nat :=
  if c = 34 then some 34
  else if c = 92 then some 92
  else if c = 47 then some 47
  else if c = 110 then some 10
  else if c = 116 then some 9
  else if c = 114 then some 13
  else if c = 98 then some 8
  else if c = 102 then some 12
  else none

/-- Parse a string body after the opening quote, to the closing quote. -/
def parseStringBody : List Nat → Option (List Nat × List Nat)
  | 34 :: rest => some ([], rest)
  | 92 :: c :: rest =>
      match escChar c with
      | some e =>
          match parseStringBody rest with
          | some (bs, r) => some (e :: bs, r)
          | none => none
      | none => none
  | c :: rest =>
      if c = 34 || c = 92 || c < 32 then none
      else
        match parseStringBody rest with
        | some (bs, r) => some (c :: bs, r)
        | none => none
  | [] => none

/-- Leading decimal digits of the input, and the rest. -/
def takeDigits : List Nat → List Nat × List Nat
  | c :: rest =>
      if 48 ≤ c ∧ c ≤ 57 then
        let (ds, r) := takeDigits rest
        (c :: ds, r)
      else ([], c :: rest)
  | [] => ([], [])

/-- Value of a list of ASCII decimal digits. -/
def digitsVal (ds : List Nat) : Nat := ds.foldl (fun acc d => acc * 10 + (d - 48)) 0

/-- Parse an integer JSON number. -/
def parseNumber : List Nat → Option (Json × List Nat)
  | 45 :: rest =>
      match takeDigits rest with
      | ([], _) => none
      | (ds, r) => some (.num (-(digitsVal ds : Int)), r)
  | s =>
      match takeDigits s with
      | ([], _) => none
      | (ds, r) => some (.num (digitsVal ds : Int), r)

mutual

/-- Parse one JSON value; fuel bounds the recursion. -/
def parseValue : Nat → List Nat → Option (Json × List Nat)
  | 0, _ => none
  | f + 1, s =>
      match skipWs s with
      | 110 :: 117 :: 108 :: 108 :: rest => some (.null, rest)
      | 116 :: 114 :: 117 :: 101 :: rest => some (.bool true, rest)
      | 102 :: 97 :: 108 :: 115 :: 101 :: rest => some (.bool false, rest)
      | 34 :: rest =>
          match parseStringBody rest with
          | some (bs, r) => some (.str bs, r)
          | none => none
      | 91 :: rest =>
          match skipWs rest with
          | 93 :: r => some (.arr [], r)
          | s1 =>
              match parseItems f s1 with
              | some (vs, r) => some (.arr vs, r)
              | none => none
      | 123 :: rest =>
          match skipWs rest with
          | 125 :: r => some (.obj [], r)
          | s1 =>
              match parseMembers f s1 with
              | some (ms, r) => some (.obj ms, r)
              | none => none
      | s1 => parseNumber s1

/-- Parse the comma-separated items of a non-empty array, incl. the `]`. -/
def parseItems : Nat → List Nat → Option (List Json × List Nat)
  | 0, _ => none
  | f + 1, s =>
      match parseValue f s with
      | none => none
      | some (v, rest) =>
          match skipWs rest with
          | 44 :: r =>
              match parseItems f r with
              | some (vs, r2) => some (v :: vs, r2)
              | none => none
          | 93 :: r => some ([v], r)
          | _ => none

/-- Parse the members of a non-empty object, incl. the `\x7d`. -/
def parseMembers : Nat → List Nat → Option (List (List Nat × Json) × List Nat)
  | 0, _ => none
  | f + 1, s =>
      match skipWs s with
      | 34 :: rest =>
          match parseStringBody rest with
          | none => none
          | some (key, rest1) =>
              match skipWs rest1 with
              | 58 :: rest2 =>
                  match parseValue f rest2 with
                  | none => none
                  | some (v, rest3) =>
                      match skipWs rest3 with
                      | 44 :: rest4 =>
                          match parseMembers f rest4 with
                          | some (ms, r) => some ((key, v) :: ms, r)
                          | none => none
                      | 125 :: rest4 => some ([(key, v)], rest4)
                      | _ => none
              | _ => none
      | _ => none

end

/-- Parse a complete JSON document (only trailing whitespace allowed). -/
def jsonParse (bs : List Nat) : Option Json :=
  match parseValue (2 * bs.length + 2) bs with
  | some (j, rest) => if skipWs rest = [] then some j else none
  | none => none

/-- First binding of a key in an object's member list. -/
def lookupField (fields : List (List Nat × Json)) (key : List Nat) : Option Json :=
  match fields with
  | [] => none
  | (k, v) :: rest => if k = key then some v else lookupField rest key

end Json

namespace Chrono

/-!
`chrono` `DateTime<Utc>` modelled as seconds since the Unix epoch (`Int`);
the code compares timestamps and adds day-lengths, both exact at second
granularity (sub-second precision is not modelled).  `to_rfc3339` and the
RFC 3339 parse behind serde's `DateTime<Utc>` deserialization are modelled
on the proleptic Gregorian calendar, as chrono computes them.
-/

/-- Gregorian leap year. -/
def isLeap (y : Int) : Bool := (y % 4 = 0 && y % 100 ≠ 0) || y % 400 = 0

/-- Days in a month of a year. -/
def daysInMonth (y : Int) (m : Nat) : Nat :=
  if m = 2 then (if isLeap y then 29 else 28)
  else if m = 4 || m = 6 || m = 9 || m = 11 then 30
  else 31

/-- Days since 1970-01-01 of a civil date (proleptic Gregorian). -/
def daysFromCivil (y : Int) (m d : Nat) : Int :=
  let y1 : Int := if m ≤ 2 then y - 1 else y
  let era : Int := Int.fdiv y1 400
  let yoe : Nat := (y1 - era * 400).toNat
  let mp : Nat := if m > 2 then m - 3 else m + 9
  let doy : Nat := (153 * mp + 2) / 5 + d - 1
  let doe : Nat := yoe * 365 + yoe / 4 - yoe / 100 + doy
  era * 146097 + (doe : Int) - 719468

/-- Civil date (year, month, day) of a days-since-epoch count. -/
def civilFromDays (z : Int) : Int × Nat × Nat :=
  let z1 : Int := z + 719468
  let era : Int := Int.fdiv z1 146097
  let doe : Nat := (z1 - era * 146097).toNat
  let yoe : Nat := (doe - doe / 1460 + doe / 36524 - doe / 146096) / 365
  let doy : Nat := doe - (365 * yoe + yoe / 4 - yoe / 100)
  let mp : Nat := (5 * doy + 2) / 153
  let d : Nat := doy - (153 * mp + 2) / 5 + 1
  let m : Nat := if mp < 10 then mp + 3 else mp - 9
  ((era * 400 + yoe : Int) + (if m ≤ 2 then 1 else 0), m, d)

/-- Two ASCII digits. -/
def pad2 (n : Nat) : List Nat := [48 + n / 10 % 10, 48 + n % 10]

/-- Four ASCII digits. -/
def pad4 (n : Nat) : List Nat :=
  [48 + n / 1000 % 10, 48 + n / 100 % 10, 48 + n / 10 % 10, 48 + n % 10]

/-- `to_rfc3339` of a UTC timestamp at second granularity:
`YYYY-MM-DDTHH:MM:SS+00:00`, as the byte list of the string. -/
def rfc3339OfEpoch (t : Int) : List Nat :=
  let days := Int.fdiv t 86400
  let secs := (Int.emod t 86400).toNat
  let ymd := civilFromDays days
  pad4 ymd.1.toNat ++ [45] ++ pad2 ymd.2.1 ++ [45] ++ pad2 ymd.2.2 ++ [84] ++
    pad2 (secs / 3600) ++ [58] ++ pad2 (secs % 3600 / 60) ++ [58] ++
    pad2 (secs % 60) ++ Bytes.ascii "+00:00"

/-- Value of an ASCII digit byte. -/
def digitVal (c : Nat) : Option Nat :=
  if 48 ≤ c ∧ c ≤ 57 then some (c - 48) else none

/-- Drop leading digits (used to skip a fractional-second part). -/
def dropDigits : List Nat → List Nat
  | c :: rest => if 48 ≤ c ∧ c ≤ 57 then dropDigits rest else c :: rest
  | [] => []

/-- Parse the timezone offset tail of an RFC 3339 string, in seconds. -/
def parseOffset : List Nat → Option Int
  | [90] => some 0
  | [122] => some 0
  | [sign, h1, h2, 58, m1, m2] =>
      match digitVal h1, digitVal h2, digitVal m1, digitVal m2 with
      | some a, some b, some c, some d =>
          let hh := a * 10 + b
          let mm := c * 10 + d
          if hh ≤ 23 ∧ mm ≤ 59 then
            if sign = 43 then some ((hh * 3600 + mm * 60 : Nat) : Int)
            else if sign = 45 then some (-((hh * 3600 + mm * 60 : Nat) : Int))
            else none
          else none
      | _, _, _, _ => none
  | _ => none

/-- Parse an RFC 3339 timestamp to epoch seconds (fractional seconds are
accepted and truncated; the calendar fields are range-checked). -/
def parseRfc3339 (s : List Nat) : Option Int :=
  match s with
  | y1 :: y2 :: y3 :: y4 :: 45 :: o1 :: o2 :: 45 :: d1 :: d2 :: 84 ::
    h1 :: h2 :: 58 :: i1 :: i2 :: 58 :: s1 :: s2 :: rest =>
      match digitVal y1, digitVal y2, digitVal y3, digitVal y4,
            digitVal o1, digitVal o2, digitVal d1, digitVal d2,
            digitVal h1, digitVal h2, digitVal i1, digitVal i2,
            digitVal s1, digitVal s2 with
      | some a, some b, some c, some d, some e, some f, some g, some h,
        some i, some j, some k, some l, some m, some n =>
          let year : Int := (a * 1000 + b * 100 + c * 10 + d : Nat)
          let month := e * 10 + f
          let day := g * 10 + h
          let hour := i * 10 + j
          let minute := k * 10 + l
          let second := m * 10 + n
          let tail := match rest with
            | 46 :: c1 :: more =>
                if 48 ≤ c1 ∧ c1 ≤ 57 then some (dropDigits more) else none
            | other => some other
          match tail with
          | none => none
          | some tz =>
              match parseOffset tz with
              | none => none
              | some off =>
                  if 1 ≤ month ∧ month ≤ 12 ∧ 1 ≤ day ∧
                     day ≤ daysInMonth year month ∧
                     hour ≤ 23 ∧ minute ≤ 59 ∧ second ≤ 59 then
                    some (daysFromCivil year month day * 86400 +
                          (hour * 3600 + minute * 60 + second : Nat) - off)
                  else none
      | _, _, _, _, _, _, _, _, _, _, _, _, _, _ => none
  | _ => none

end Chrono

namespace Val

/-!
## The validator — `src/rust/scc-license/src/main.rs`

`validate_license` is embedded over: the file content as `Option (List Nat)`
(`none` for a failed read), the optional domain argument as an optional byte
list, and the current time (`Utc::now()`) as an explicit epoch-second
parameter.  Rust `String` fields are byte lists.
-/

/-- `enum LicenseType` with `#[serde(rename_all = "lowercase")]`. -/
inductive LicenseType where
  | trial
  | single
  | multi
  | enterprise
  | developer
deriving DecidableEq, Repr

/-- The serde deserialization of a `LicenseType` from its JSON string:
exactly the five lowercase variant names. -/
def LicenseType.fromBytes (s : List Nat) : Option LicenseType :=
  if s = Bytes.ascii "trial" then some .trial
  else if s = Bytes.ascii "single" then some .single
  else if s = Bytes.ascii "multi" then some .multi
  else if s = Bytes.ascii "enterprise" then some .enterprise
  else if s = Bytes.ascii "developer" then some .developer
  else none

/-- `struct LicenseInfo` of the validator (timestamps at second
granularity, strings as byte lists). -/
structure LicenseInfo where
  licensee : List Nat
  email : List Nat
  license_type : LicenseType
  issued_at : Int
  expires_at : Int
  domains : List (List Nat)
  features : List (List Nat)
  max_users : Option Nat
deriving DecidableEq, Repr

/-- `struct LicenseFile` of the validator: `version: u8`, base64 `payload`
text, hex `signature` text. -/
structure LicenseFile where
  version : Nat
  payload : List Nat
  signature : List Nat
deriving DecidableEq, Repr

/-- A required string field of a JSON object. -/
def getStr (fields : List (List Nat × Json)) (key : List Nat) : Option (List Nat) :=
  match Json.lookupField fields key with
  | some (.str s) => some s
  | _ => none

/-- A required `DateTime<Utc>` field: a string field parsed as RFC 3339. -/
def getTime (fields : List (List Nat × Json)) (key : List Nat) : Option Int :=
  (getStr fields key).bind Chrono.parseRfc3339

/-- A JSON array of strings, as serde reads a `Vec<String>`. -/
def strList : List Json → Option (List (List Nat))
  | [] => some []
  | .str s :: rest => (strList rest).map (s :: ·)
  | _ => none

/-- A required `Vec<String>` field. -/
def getStrList (fields : List (List Nat × Json)) (key : List Nat) :
    Option (List (List Nat)) :=
  match Json.lookupField fields key with
  | some (.arr js) => strList js
  | _ => none

/-- The `max_users: Option<u32>` field: JSON null or a number in `u32`
range. -/
def getMaxUsers (fields : List (List Nat × Json)) : Option (Option Nat) :=
  match Json.lookupField fields (Bytes.ascii "max_users") with
  | some .null => some none
  | some (.num n) => if 0 ≤ n ∧ n < 4294967296 then some (some n.toNat) else none
  | _ => none

/-- serde deserialization of a `LicenseInfo` from a JSON value: all eight
fields required with their types; `license_type` must be one of the five
lowercase tier names. -/
def infoFromJson : Json → Option LicenseInfo
  | .obj fields => do
      let licensee ← getStr fields (Bytes.ascii "licensee")
      let email ← getStr fields (Bytes.ascii "email")
      let lt ← (getStr fields (Bytes.ascii "license_type")).bind LicenseType.fromBytes
      let issued ← getTime fields (Bytes.ascii "issued_at")
      let expires ← getTime fields (Bytes.ascii "expires_at")
      let domains ← getStrList fields (Bytes.ascii "domains")
      let features ← getStrList fields (Bytes.ascii "features")
      let mu ← getMaxUsers fields
      some { licensee := licensee, email := email, license_type := lt,
             issued_at := issued, expires_at := expires, domains := domains,
             features := features, max_users := mu }
  | _ => none

/-- `serde_json::from_slice::<LicenseInfo>` on the payload bytes. -/
def decodeInfo (bs : List Nat) : Option LicenseInfo :=
  (Json.jsonParse bs).bind infoFromJson

/-- The `license_type` string a payload carries (its JSON `license_type`
field when the payload is an object with a string there): the projection the
unknown-tier claim quantifies over. -/
def payloadTier (p : List Nat) : Option (List Nat) :=
  match Json.jsonParse p with
  | some (.obj fields) =>
      match Json.lookupField fields (Bytes.ascii "license_type") with
      | some (.str t) => some t
      | _ => none
  | _ => none

/-- serde deserialization of a `LicenseFile` from a JSON value: `version`
must fit `u8`, `payload` and `signature` are strings. -/
def fileFromJson : Json → Option LicenseFile
  | .obj fields => do
      let v ← match Json.lookupField fields (Bytes.ascii "version") with
              | some (.num n) => if 0 ≤ n ∧ n < 256 then some n.toNat else none
              | _ => none
      let payload ← getStr fields (Bytes.ascii "payload")
      let signature ← getStr fields (Bytes.ascii "signature")
      some { version := v, payload := payload, signature := signature }
  | _ => none

/-- `serde_json::from_str::<LicenseFile>` on the file content. -/
def parseLicenseFile (content : List Nat) : Option LicenseFile :=
  (Json.jsonParse content).bind fileFromJson

/-- The validator's secret salt, `b"scc-license-salt-2025"`. -/
def sccSalt : List Nat := Bytes.ascii "scc-license-salt-2025"

/-- `compute_signature` of the validator:
`hex::encode(Sha256(payload ++ b"scc-license-salt-2025"))`, as the byte list
of the hex string. -/
def compute_signature (payload : List Nat) : List Nat :=
  Hex.hexEncode (Sha256.sha256 (payload ++ sccSalt))

/-- The validator's error classifications, one per `Err` site of
`validate_license` (each a distinct format string in the source). -/
inductive VErr where
  | cannotRead
  | malformedFile
  | unsupportedVersion (v : Nat)
  | invalidPayload
  | invalidSignature
  | malformedData
  | expired (expiresAt : Int)
  | domainNotLicensed (domain : List Nat) (licensed : List (List Nat))
deriving DecidableEq, Repr

/-- `validate_license(path, check_domain)`: `file` is the result of
`fs::read_to_string` (`none` = read failure), `now` is `Utc::now()`. -/
def validate_license (file : Option (List Nat)) (check_domain : Option (List Nat))
    (now : Int) : Except VErr LicenseInfo :=
  match file with
  | none => .error .cannotRead
  | some content =>
    match parseLicenseFile content with
    | none => .error .malformedFile
    | some lf =>
      if lf.version ≠ 1 then .error (.unsupportedVersion lf.version)
      else
        match Base64.base64Decode lf.payload with
        | none => .error .invalidPayload
        | some p =>
          if lf.signature ≠ compute_signature p then .error .invalidSignature
          else
            match decodeInfo p with
            | none => .error .malformedData
            | some info =>
              if info.expires_at < now then .error (.expired info.expires_at)
              else
                match check_domain with
                | some d =>
                    if info.domains ≠ [] ∧ d ∉ info.domains then
                      .error (.domainNotLicensed d info.domains)
                    else .ok info
                | none => .ok info

/-- The named checks of the validator, in source order. -/
inductive Step where
  | load
  | structParse
  | versionCheck
  | payloadDecode
  | sigVerify
  | payloadParse
  | expiryCheck
  | domainCheck
deriving DecidableEq, Repr

/-- The canonical check order of the validator. -/
def checkOrder : List Step :=
  [.load, .structParse, .versionCheck, .payloadDecode, .sigVerify,
   .payloadParse, .expiryCheck, .domainCheck]

/-- The check at which each error classification arises. -/
def errStep : VErr → Step
  | .cannotRead => .load
  | .malformedFile => .structParse
  | .unsupportedVersion _ => .versionCheck
  | .invalidPayload => .payloadDecode
  | .invalidSignature => .sigVerify
  | .malformedData => .payloadParse
  | .expired _ => .expiryCheck
  | .domainNotLicensed _ _ => .domainCheck

/-- `validate_license` instrumented with the list of checks it enters, in
the order it enters them. -/
def validateTrace (file : Option (List Nat)) (check_domain : Option (List Nat))
    (now : Int) : List Step × Except VErr LicenseInfo :=
  match file with
  | none => ([.load], .error .cannotRead)
  | some content =>
    match parseLicenseFile content with
    | none => ([.load, .structParse], .error .malformedFile)
    | some lf =>
      if lf.version ≠ 1 then
        ([.load, .structParse, .versionCheck], .error (.unsupportedVersion lf.version))
      else
        match Base64.base64Decode lf.payload with
        | none =>
            ([.load, .structParse, .versionCheck, .payloadDecode],
             .error .invalidPayload)
        | some p =>
          if lf.signature ≠ compute_signature p then
            ([.load, .structParse, .versionCheck, .payloadDecode, .sigVerify],
             .error .invalidSignature)
          else
            match decodeInfo p with
            | none =>
                ([.load, .structParse, .versionCheck, .payloadDecode, .sigVerify,
                  .payloadParse], .error .malformedData)
            | some info =>
              if info.expires_at < now then
                ([.load, .structParse, .versionCheck, .payloadDecode, .sigVerify,
                  .payloadParse, .expiryCheck], .error (.expired info.expires_at))
              else
                match check_domain with
                | some d =>
                    if info.domains ≠ [] ∧ d ∉ info.domains then
                      (checkOrder, .error (.domainNotLicensed d info.domains))
                    else (checkOrder, .ok info)
                | none => (checkOrder, .ok info)

/-- Signature verification succeeded on this input: the file reads, parses
structurally, has version 1, its payload base64-decodes, and the signature
field equals the recomputed keyed hash. -/
def sigVerified (file : Option (List Nat)) : Prop :=
  ∃ content lf p, file = some content ∧ parseLicenseFile content = some lf ∧
    lf.version = 1 ∧ Base64.base64Decode lf.payload = some p ∧
    lf.signature = compute_signature p

end Val

namespace Gen

/-!
## The generator — `src/rust/pfv-license/src/bin/generate.rs`

`main` after argument parsing is embedded as `generate`: its inputs are the
already-resolved option values (the `get_arg … unwrap_or` defaults are the
concrete byte lists used in the claims that exercise them), `days` is the
already-parsed `i64`, and `Utc::now()` is an explicit epoch-second
parameter.  The file write is modelled by returning the serialized output
(pretty-printer whitespace is elided; the validator's parse is
whitespace-insensitive).
-/

/-- `struct LicenseInfo` of the generator: all free-form fields are plain
strings (byte lists), including `license_type` and the two timestamps. -/
structure LicenseInfo where
  licensee : List Nat
  email : List Nat
  license_type : List Nat
  issued_at : List Nat
  expires_at : List Nat
  domains : List (List Nat)
  features : List (List Nat)
  max_users : Option Nat
deriving DecidableEq, Repr

/-- `struct LicenseFile` of the generator. -/
structure LicenseFile where
  version : Nat
  payload : List Nat
  signature : List Nat
deriving DecidableEq, Repr

/-- The generator's secret salt, `b"pfv-license-salt-2025"`. -/
def pfvSalt : List Nat := Bytes.ascii "pfv-license-salt-2025"

/-- `compute_signature` of the generator:
`hex::encode(Sha256(payload ++ b"pfv-license-salt-2025"))`. -/
def compute_signature (payload : List Nat) : List Nat :=
  Hex.hexEncode (Sha256.sha256 (payload ++ pfvSalt))

/-- `get_features_for_type`: string match on the tier, with fallback
`vec!["basic"]`. -/
def get_features_for_type (license_type : List Nat) : List (List Nat) :=
  if license_type = Bytes.ascii "trial" then [Bytes.ascii "basic"]
  else if license_type = Bytes.ascii "single" then
    [Bytes.ascii "basic", Bytes.ascii "appointments", Bytes.ascii "ecommerce"]
  else if license_type = Bytes.ascii "multi" then
    [Bytes.ascii "basic", Bytes.ascii "appointments", Bytes.ascii "ecommerce",
     Bytes.ascii "multi_location"]
  else if license_type = Bytes.ascii "enterprise" then [Bytes.ascii "all"]
  else if license_type = Bytes.ascii "developer" then
    [Bytes.ascii "all", Bytes.ascii "dev_mode"]
  else [Bytes.ascii "basic"]

/-- `get_max_users_for_type`: string match on the tier, with fallback
`Some(1)`; `None` means unlimited. -/
def get_max_users_for_type (license_type : List Nat) : Option Nat :=
  if license_type = Bytes.ascii "trial" then some 1
  else if license_type = Bytes.ascii "single" then some 5
  else if license_type = Bytes.ascii "multi" then some 20
  else if license_type = Bytes.ascii "enterprise" then none
  else if license_type = Bytes.ascii "developer" then some 2
  else some 1

/-- Rust `str::split(',')`: split at every comma, keeping empty pieces. -/
def splitOnComma : List Nat → List (List Nat)
  | [] => [[]]
  | 44 :: rest => [] :: splitOnComma rest
  | c :: rest =>
      match splitOnComma rest with
      | g :: gs => (c :: g) :: gs
      | [] => [[c]]

/-- Rust whitespace for `str::trim`, at the ASCII granularity used here. -/
def isTrimWs (c : Nat) : Bool := c = 32 || c = 9 || c = 10 || c = 13 || c = 12 || c = 11

/-- Rust `str::trim`. -/
def trimBytes (s : List Nat) : List Nat :=
  ((s.dropWhile isTrimWs).reverse.dropWhile isTrimWs).reverse

/-- `serde_json` string escaping of one byte. -/
def escapeChar (c : Nat) : List Nat :=
  if c = 34 then [92, 34]
  else if c = 92 then [92, 92]
  else if c = 8 then [92, 98]
  else if c = 9 then [92, 116]
  else if c = 10 then [92, 110]
  else if c = 12 then [92, 102]
  else if c = 13 then [92, 114]
  else if c < 32 then [92, 117, 48, 48, Hex.hexDigit (c / 16), Hex.hexDigit (c % 16)]
  else [c]

/-- A serialized JSON string. -/
def jstr (s : List Nat) : List Nat := [34] ++ s.flatMap escapeChar ++ [34]

/-- A serialized JSON array of strings. -/
def jstrArr (ss : List (List Nat)) : List Nat :=
  [91] ++ List.intercalate [44] (ss.map jstr) ++ [93]

/-- ASCII decimal digits, fuel-indexed for structural recursion (the fuel
`n` always suffices since `n / 10` shrinks at least that fast). -/
def natDigitsAux : Nat → Nat → List Nat
  | 0, n => [48 + n % 10]
  | f + 1, n => if n < 10 then [48 + n] else natDigitsAux f (n / 10) ++ [48 + n % 10]

/-- ASCII decimal digits of a natural number. -/
def natDigits (n : Nat) : List Nat := natDigitsAux n n

/-- `serde_json::to_vec(&info)`: the JSON object with the struct's fields in
declaration order. -/
def encodeGenInfo (i : LicenseInfo) : List Nat :=
  [123] ++ jstr (Bytes.ascii "licensee") ++ [58] ++ jstr i.licensee ++
  [44] ++ jstr (Bytes.ascii "email") ++ [58] ++ jstr i.email ++
  [44] ++ jstr (Bytes.ascii "license_type") ++ [58] ++ jstr i.license_type ++
  [44] ++ jstr (Bytes.ascii "issued_at") ++ [58] ++ jstr i.issued_at ++
  [44] ++ jstr (Bytes.ascii "expires_at") ++ [58] ++ jstr i.expires_at ++
  [44] ++ jstr (Bytes.ascii "domains") ++ [58] ++ jstrArr i.domains ++
  [44] ++ jstr (Bytes.ascii "features") ++ [58] ++ jstrArr i.features ++
  [44] ++ jstr (Bytes.ascii "max_users") ++ [58] ++
    (match i.max_users with
     | none => Bytes.ascii "null"
     | some n => natDigits n) ++
  [125]

/-- The resolved inputs of the generator (after `get_arg`/`unwrap_or` and
the `days` parse). -/
structure Params where
  licensee : List Nat
  email : List Nat
  license_type : List Nat
  domains_str : List Nat
  days : Int
deriving Repr

/-- The body of the generator's `main` after argument handling: builds the
record (entitlements derived from the tier, `expires = now + days·86400`),
serializes and signs the payload, and assembles the version-1 artifact. -/
def generate (p : Params) (now : Int) : LicenseInfo × LicenseFile :=
  let expires : Int := now + p.days * 86400
  let info : LicenseInfo :=
    { licensee := p.licensee
      email := p.email
      license_type := p.license_type
      issued_at := Chrono.rfc3339OfEpoch now
      expires_at := Chrono.rfc3339OfEpoch expires
      domains := (splitOnComma p.domains_str).map trimBytes
      features := get_features_for_type p.license_type
      max_users := get_max_users_for_type p.license_type }
  let payload_json := encodeGenInfo info
  (info,
   { version := 1
     payload := Base64.base64Encode payload_json
     signature := compute_signature payload_json })

/-- `serde_json::to_string_pretty(&license_file)`, with the pretty-printer's
whitespace elided: the serialized artifact the generator writes. -/
def outputFile (f : LicenseFile) : List Nat :=
  [123] ++ jstr (Bytes.ascii "version") ++ [58] ++ natDigits f.version ++
  [44] ++ jstr (Bytes.ascii "payload") ++ [58] ++ jstr f.payload ++
  [44] ++ jstr (Bytes.ascii "signature") ++ [58] ++ jstr f.signature ++
  [125]

/-- The default option values of the generator's `main`. -/
def defaultParams : Params :=
  { licensee := Bytes.ascii "Demo User"
    email := Bytes.ascii "demo@example.com"
    license_type := Bytes.ascii "trial"
    domains_str := Bytes.ascii "localhost"
    days := 30 }

end Gen

deriving instance DecidableEq for Except

/-!
## Concrete inputs

Fixed artifacts used to evaluate the models at explicit inputs.  `T0` is
2025-10-12T00:00:00Z.  Artifacts meant to get past the signature check are
signed with the validator's salt (the generator's own artifacts cannot pass
it, see the C1 theorem).
-/

def T0 : Int := 1760227200

/-- An artifact file with the given fields (the validator's file format). -/
def mkArtifact (v : Nat) (pl sg : List Nat) : List Nat :=
  Gen.outputFile { version := v, payload := pl, signature := sg }

/-- Issuance parameters of the running example: a `multi` license for two
domains, 365 days. -/
def sampleParams : Gen.Params :=
  { licensee := Bytes.ascii "Dr. Pablo"
    email := Bytes.ascii "pablo@clinic.com"
    license_type := Bytes.ascii "multi"
    domains_str := Bytes.ascii "a.com,b.com"
    days := 365 }

/-- The running example's expiry, `T0 + 365 · 86400`. -/
def TExp : Int := 1791763200

def sampleInfo : Gen.LicenseInfo := (Gen.generate sampleParams T0).1

def samplePayload : List Nat := Gen.encodeGenInfo sampleInfo

/-- The running example, signed with the validator's salt. -/
def sampleFile : List Nat :=
  mkArtifact 1 (Base64.base64Encode samplePayload) (Val.compute_signature samplePayload)

/-- What the validator parses the running example's payload into. -/
def sampleValInfo : Val.LicenseInfo :=
  { licensee := Bytes.ascii "Dr. Pablo"
    email := Bytes.ascii "pablo@clinic.com"
    license_type := .multi
    issued_at := T0
    expires_at := TExp
    domains := [Bytes.ascii "a.com", Bytes.ascii "b.com"]
    features := [Bytes.ascii "basic", Bytes.ascii "appointments",
                 Bytes.ascii "ecommerce", Bytes.ascii "multi_location"]
    max_users := some 20 }

/-- The running example with its signature replaced by a wrong hex string. -/
def c2BadFile : List Nat :=
  mkArtifact 1 (Base64.base64Encode samplePayload) (Bytes.ascii "deadbeef")

/-- The running example's payload with its first byte changed (to a space). -/
def c2TamperPayload : List Nat := samplePayload.set 0 32

/-- The tampered payload under the original (held-fixed) signature. -/
def c2TamperFile : List Nat :=
  mkArtifact 1 (Base64.base64Encode c2TamperPayload) (Val.compute_signature samplePayload)

/-- A record whose expiry is exactly `c4Now`. -/
def c4Info : Gen.LicenseInfo :=
  { licensee := Bytes.ascii "Demo User"
    email := Bytes.ascii "demo@example.com"
    license_type := Bytes.ascii "trial"
    issued_at := Chrono.rfc3339OfEpoch T0
    expires_at := Chrono.rfc3339OfEpoch 1762819200
    domains := [Bytes.ascii "localhost"]
    features := [Bytes.ascii "basic"]
    max_users := some 1 }

def c4Now : Int := 1762819200

def c4Payload : List Nat := Gen.encodeGenInfo c4Info

def c4File : List Nat :=
  mkArtifact 1 (Base64.base64Encode c4Payload) (Val.compute_signature c4Payload)

/-- What the validator parses `c4Payload` into. -/
def c4ValInfo : Val.LicenseInfo :=
  { licensee := Bytes.ascii "Demo User"
    email := Bytes.ascii "demo@example.com"
    license_type := .trial
    issued_at := T0
    expires_at := c4Now
    domains := [Bytes.ascii "localhost"]
    features := [Bytes.ascii "basic"]
    max_users := some 1 }

/-- The running example at version 2: payload and signature self-consistent,
only the version is undefined. -/
def c5File : List Nat :=
  mkArtifact 2 (Base64.base64Encode samplePayload) (Val.compute_signature samplePayload)

/-- A record with an empty domain list. -/
def c6EmptyInfo : Gen.LicenseInfo :=
  { c4Info with domains := [] }

def c6EmptyPayload : List Nat := Gen.encodeGenInfo c6EmptyInfo

def c6EmptyFile : List Nat :=
  mkArtifact 1 (Base64.base64Encode c6EmptyPayload) (Val.compute_signature c6EmptyPayload)

/-- What the validator parses `c6EmptyPayload` into. -/
def c6EmptyValInfo : Val.LicenseInfo :=
  { c4ValInfo with domains := [] }

/-- A record carrying the unrecognized tier string `"gold"` (the generator
happily embeds it; the validator's enum does not know it). -/
def c10Info : Gen.LicenseInfo :=
  { c4Info with license_type := Bytes.ascii "gold" }

def c10Payload : List Nat := Gen.encodeGenInfo c10Info

def c10File : List Nat :=
  mkArtifact 1 (Base64.base64Encode c10Payload) (Val.compute_signature c10Payload)

/-!
## Helper lemmas

One lemma per control-flow exit of `validate_license`, used to assemble the
claim theorems.
-/

theorem validate_read_fail (d : Option (List Nat)) (now : Int) :
    Val.validate_license none d now = .error .cannotRead := rfl

theorem validate_sig_fail (content : List Nat) (lf : Val.LicenseFile) (p : List Nat)
    (d : Option (List Nat)) (now : Int)
    (hp : Val.parseLicenseFile content = some lf) (hv : lf.version = 1)
    (hb : Base64.base64Decode lf.payload = some p)
    (hs : lf.signature ≠ Val.compute_signature p) :
    Val.validate_license (some content) d now = .error .invalidSignature := by
  unfold Val.validate_license
  simp [hp, hv, hb, hs]

theorem validate_parse_fail (content : List Nat) (lf : Val.LicenseFile) (p : List Nat)
    (d : Option (List Nat)) (now : Int)
    (hp : Val.parseLicenseFile content = some lf) (hv : lf.version = 1)
    (hb : Base64.base64Decode lf.payload = some p)
    (hs : lf.signature = Val.compute_signature p)
    (hi : Val.decodeInfo p = none) :
    Val.validate_license (some content) d now = .error .malformedData := by
  unfold Val.validate_license
  simp [hp, hv, hb, hs, hi]

theorem validate_expired (content : List Nat) (lf : Val.LicenseFile) (p : List Nat)
    (info : Val.LicenseInfo) (d : Option (List Nat)) (now : Int)
    (hp : Val.parseLicenseFile content = some lf) (hv : lf.version = 1)
    (hb : Base64.base64Decode lf.payload = some p)
    (hs : lf.signature = Val.compute_signature p)
    (hi : Val.decodeInfo p = some info) (he : info.expires_at < now) :
    Val.validate_license (some content) d now = .error (.expired info.expires_at) := by
  unfold Val.validate_license
  simp [hp, hv, hb, hs, hi, he]

theorem validate_no_domain_ok (content : List Nat) (lf : Val.LicenseFile) (p : List Nat)
    (info : Val.LicenseInfo) (now : Int)
    (hp : Val.parseLicenseFile content = some lf) (hv : lf.version = 1)
    (hb : Base64.base64Decode lf.payload = some p)
    (hs : lf.signature = Val.compute_signature p)
    (hi : Val.decodeInfo p = some info) (he : ¬ info.expires_at < now) :
    Val.validate_license (some content) none now = .ok info := by
  unfold Val.validate_license
  simp [hp, hv, hb, hs, hi, he]

theorem validate_domain_fail (content : List Nat) (lf : Val.LicenseFile) (p : List Nat)
    (info : Val.LicenseInfo) (dd : List Nat) (now : Int)
    (hp : Val.parseLicenseFile content = some lf) (hv : lf.version = 1)
    (hb : Base64.base64Decode lf.payload = some p)
    (hs : lf.signature = Val.compute_signature p)
    (hi : Val.decodeInfo p = some info) (he : ¬ info.expires_at < now)
    (hd : info.domains ≠ [] ∧ dd ∉ info.domains) :
    Val.validate_license (some content) (some dd) now =
      .error (.domainNotLicensed dd info.domains) := by
  unfold Val.validate_license
  simp [hp, hv, hb, hs, hi, he, hd.1, hd.2]

theorem validate_domain_ok (content : List Nat) (lf : Val.LicenseFile) (p : List Nat)
    (info : Val.LicenseInfo) (dd : List Nat) (now : Int)
    (hp : Val.parseLicenseFile content = some lf) (hv : lf.version = 1)
    (hb : Base64.base64Decode lf.payload = some p)
    (hs : lf.signature = Val.compute_signature p)
    (hi : Val.decodeInfo p = some info) (he : ¬ info.expires_at < now)
    (hd : ¬ (info.domains ≠ [] ∧ dd ∉ info.domains)) :
    Val.validate_license (some content) (some dd) now = .ok info := by
  unfold Val.validate_license
  simp only [hp, hv, hb, hs, hi]
  simp [he, hd]

/-- C5: an artifact whose version field is not 1 is rejected as
`UnsupportedVersion` whatever its payload and signature hold, and the
validator stops at the version check (it neither decodes nor parses the
payload). -/
theorem c5_version_gate (content : List Nat) (lf : Val.LicenseFile)
    (d : Option (List Nat)) (now : Int)
    (hp : Val.parseLicenseFile content = some lf) (hv : lf.version ≠ 1) :
    Val.validate_license (some content) d now =
      .error (.unsupportedVersion lf.version) ∧
    (Val.validateTrace (some content) d now).1 =
      [.load, .structParse, .versionCheck] := by
  constructor
  · unfold Val.validate_license
    simp [hp, hv]
  · unfold Val.validateTrace
    simp [hp, hv]

/-- C5 witness: the version-2 artifact `c5File`, whose payload and signature
are self-consistent, is rejected as `UnsupportedVersion`. -/
theorem c5_version_gate_witness :
    Val.validate_license (some c5File) none T0 = .error (.unsupportedVersion 2) :=
  (c5_version_gate c5File
    { version := 2
      payload := Base64.base64Encode samplePayload
      signature := Val.compute_signature samplePayload }
    none T0 (by decide) (by decide)).1

/-- C7: the entitlement table is total over tier strings: `multi` grants the
four features and a 20-user ceiling, `enterprise` grants unlimited users,
and every unrecognized tier string falls back to the trial entry
(`features = [basic]`, `max_users = 1`). -/
theorem c7_entitlement_policy (t : List Nat)
    (h : t ∉ [Bytes.ascii "trial", Bytes.ascii "single", Bytes.ascii "multi",
              Bytes.ascii "enterprise", Bytes.ascii "developer"]) :
    (Bytes.ascii "basic" ∈ Gen.get_features_for_type (Bytes.ascii "multi") ∧
     Bytes.ascii "appointments" ∈ Gen.get_features_for_type (Bytes.ascii "multi") ∧
     Bytes.ascii "ecommerce" ∈ Gen.get_features_for_type (Bytes.ascii "multi") ∧
     Bytes.ascii "multi_location" ∈ Gen.get_features_for_type (Bytes.ascii "multi") ∧
     Gen.get_max_users_for_type (Bytes.ascii "multi") = some 20) ∧
    Gen.get_max_users_for_type (Bytes.ascii "enterprise") = none ∧
    (Gen.get_features_for_type t = [Bytes.ascii "basic"] ∧
     Gen.get_features_for_type t = Gen.get_features_for_type (Bytes.ascii "trial") ∧
     Gen.get_max_users_for_type t = some 1 ∧
     Gen.get_max_users_for_type t = Gen.get_max_users_for_type (Bytes.ascii "trial")) := by
  simp only [List.mem_cons, List.not_mem_nil, not_or, or_false] at h
  obtain ⟨h1, h2, h3, h4, h5⟩ := h
  refine ⟨by decide, by decide, ?_, ?_, ?_, ?_⟩ <;>
    simp [Gen.get_features_for_type, Gen.get_max_users_for_type, h1, h2, h3, h4, h5]

/-- C7 witness: the unrecognized tier string `"gold"` falls back to the
trial entry. -/
theorem c7_entitlement_policy_witness :
    Bytes.ascii "gold" ∉ [Bytes.ascii "trial", Bytes.ascii "single",
      Bytes.ascii "multi", Bytes.ascii "enterprise", Bytes.ascii "developer"] ∧
    Gen.get_features_for_type (Bytes.ascii "gold") = [Bytes.ascii "basic"] ∧
    Gen.get_max_users_for_type (Bytes.ascii "gold") = some 1 :=
  ⟨by decide,
   (c7_entitlement_policy (Bytes.ascii "gold") (by decide)).2.2.1,
   (c7_entitlement_policy (Bytes.ascii "gold") (by decide)).2.2.2.2.1⟩

/-- C8: the generator does not reject a non-positive duration: invoked with
`--days -5` it still produces a version-1 artifact, whose record expires
five days before it was issued (the code has no positivity check on
`days`). -/
theorem c8_nonpositive_days_accepted :
    (Gen.generate { Gen.defaultParams with days := -5 } T0).2.version = 1 ∧
    (Gen.generate { Gen.defaultParams with days := -5 } T0).1.expires_at =
      Chrono.rfc3339OfEpoch (T0 - 432000) ∧
    Chrono.parseRfc3339
        (Gen.generate { Gen.defaultParams with days := -5 } T0).1.expires_at =
      some (T0 - 432000) := by
  refine ⟨rfl, rfl, by decide⟩

/-- C9 counterexample: with `days = 0` the issuer produces a record whose
`expires_at` equals its `issued_at`, so `expires_at > issued_at` does not
hold of every issued record. -/
theorem c9_counterexample_zero_days :
    (Gen.generate { Gen.defaultParams with days := 0 } T0).1.expires_at =
      (Gen.generate { Gen.defaultParams with days := 0 } T0).1.issued_at ∧
    (Gen.generate { Gen.defaultParams with days := 0 } T0).1.issued_at =
      Chrono.rfc3339OfEpoch T0 := by
  constructor
  · show Chrono.rfc3339OfEpoch (T0 + 0 * 86400) = Chrono.rfc3339OfEpoch T0
    norm_num
  · rfl

/-- C9 (amended): for a positive requested duration, every issued record has
`expires_at` derived exactly as `issued_at + days·86400` with
`expires_at > issued_at` (as epochs), and its `features` and `max_users` are
exactly the Entitlement Policy's values for its tier — never caller
supplied. -/
theorem c9_issuance_invariant (p : Gen.Params) (now : Int) (h : 0 < p.days) :
    (Gen.generate p now).1.issued_at = Chrono.rfc3339OfEpoch now ∧
    (Gen.generate p now).1.expires_at =
      Chrono.rfc3339OfEpoch (now + p.days * 86400) ∧
    now < now + p.days * 86400 ∧
    (Gen.generate p now).1.features = Gen.get_features_for_type p.license_type ∧
    (Gen.generate p now).1.max_users = Gen.get_max_users_for_type p.license_type := by
  refine ⟨rfl, rfl, ?_, rfl, rfl⟩
  have h2 : 0 < p.days * 86400 := by positivity
  omega

/-- C4 counterexample: a record whose `expires_at` equals the current time
exactly is accepted by the validator (the claim says it returns `Expired`):
the code's check is `expires_at < now`, not `expires_at ≤ now`. -/
theorem c4_counterexample_boundary :
    Val.validate_license (some c4File) none c4Now = .ok c4ValInfo ∧
    c4ValInfo.expires_at = c4Now := by
  constructor
  · exact validate_no_domain_ok c4File
      { version := 1
        payload := Base64.base64Encode c4Payload
        signature := Val.compute_signature c4Payload }
      c4Payload c4ValInfo c4Now (by decide) (by decide) (by decide) (by decide)
      (by decide) (by decide)
  · rfl

/-- C4 (amended): for a signature-valid, well-formed record the validator
fails with `Expired` (carrying the expiration timestamp) if and only if
`expires_at` is strictly before the current time; a record with
`expires_at` equal to or after now passes the expiry check (in particular
equality passes, where the claim said it expires). -/
theorem c4_expiry_amended (content : List Nat) (lf : Val.LicenseFile) (p : List Nat)
    (info : Val.LicenseInfo) (d : Option (List Nat)) (now : Int)
    (hp : Val.parseLicenseFile content = some lf) (hv : lf.version = 1)
    (hb : Base64.base64Decode lf.payload = some p)
    (hs : lf.signature = Val.compute_signature p)
    (hi : Val.decodeInfo p = some info) :
    Val.validate_license (some content) d now = .error (.expired info.expires_at) ↔
      info.expires_at < now := by
  constructor
  · intro hEq
    by_contra hNot
    cases d with
    | none =>
        rw [validate_no_domain_ok content lf p info now hp hv hb hs hi hNot] at hEq
        exact absurd hEq (by simp)
    | some dd =>
        by_cases hd : info.domains ≠ [] ∧ dd ∉ info.domains
        · rw [validate_domain_fail content lf p info dd now hp hv hb hs hi hNot hd] at hEq
          exact absurd hEq (by simp)
        · rw [validate_domain_ok content lf p info dd now hp hv hb hs hi hNot hd] at hEq
          exact absurd hEq (by simp)
  · exact validate_expired content lf p info d now hp hv hb hs hi

/-- C4 witness: the running example, validated well after its expiry,
returns `Expired` carrying the expiration timestamp. -/
theorem c4_expiry_amended_witness :
    Val.validate_license (some sampleFile) none 1800000000 =
      .error (.expired TExp) :=
  (c4_expiry_amended sampleFile
    { version := 1
      payload := Base64.base64Encode samplePayload
      signature := Val.compute_signature samplePayload }
    samplePayload sampleValInfo none 1800000000 (by decide) (by decide)
    (by decide) (by decide) (by decide)).mpr (by decide)

/-- C6: for an otherwise-valid record, a supplied domain outside a
non-empty licensed set yields `DomainNotLicensed` carrying the checked
domain and the licensed set; with no domain argument, or with an empty
licensed set, validation succeeds. -/
theorem c6_domain_scoping (content : List Nat) (lf : Val.LicenseFile) (p : List Nat)
    (info : Val.LicenseInfo) (now : Int)
    (hp : Val.parseLicenseFile content = some lf) (hv : lf.version = 1)
    (hb : Base64.base64Decode lf.payload = some p)
    (hs : lf.signature = Val.compute_signature p)
    (hi : Val.decodeInfo p = some info) (he : ¬ info.expires_at < now) :
    (∀ dd, info.domains ≠ [] → dd ∉ info.domains →
        Val.validate_license (some content) (some dd) now =
          .error (.domainNotLicensed dd info.domains)) ∧
    Val.validate_license (some content) none now = .ok info ∧
    (info.domains = [] → ∀ dd,
        Val.validate_license (some content) (some dd) now = .ok info) := by
  refine ⟨?_, ?_, ?_⟩
  · intro dd hne hnm
    exact validate_domain_fail content lf p info dd now hp hv hb hs hi he ⟨hne, hnm⟩
  · exact validate_no_domain_ok content lf p info now hp hv hb hs hi he
  · intro hEmpty dd
    exact validate_domain_ok content lf p info dd now hp hv hb hs hi he
      (by simp [hEmpty])

/-- C6 witness: the running example (`domains = [a.com, b.com]`) rejects
`c.com` and passes with no domain argument; the empty-domains artifact
passes against an arbitrary domain. -/
theorem c6_domain_scoping_witness :
    Val.validate_license (some sampleFile) (some (Bytes.ascii "c.com")) T0 =
      .error (.domainNotLicensed (Bytes.ascii "c.com")
        [Bytes.ascii "a.com", Bytes.ascii "b.com"]) ∧
    Val.validate_license (some sampleFile) none T0 = .ok sampleValInfo ∧
    Val.validate_license (some c6EmptyFile) (some (Bytes.ascii "whatever.example")) T0 =
      .ok c6EmptyValInfo :=
  ⟨(c6_domain_scoping sampleFile
      { version := 1
        payload := Base64.base64Encode samplePayload
        signature := Val.compute_signature samplePayload }
      samplePayload sampleValInfo T0 (by decide) (by decide) (by decide)
      (by decide) (by decide) (by decide)).1 (Bytes.ascii "c.com")
      (by decide) (by decide),
   (c6_domain_scoping sampleFile
      { version := 1
        payload := Base64.base64Encode samplePayload
        signature := Val.compute_signature samplePayload }
      samplePayload sampleValInfo T0 (by decide) (by decide) (by decide)
      (by decide) (by decide) (by decide)).2.1,
   (c6_domain_scoping c6EmptyFile
      { version := 1
        payload := Base64.base64Encode c6EmptyPayload
        signature := Val.compute_signature c6EmptyPayload }
      c6EmptyPayload c6EmptyValInfo T0 (by decide) (by decide) (by decide)
      (by decide) (by decide) (by decide)).2.2 rfl (Bytes.ascii "whatever.example")⟩

/-- C9 witness: the running example (365 days) instantiates the amended
invariant. -/
theorem c9_issuance_invariant_witness :
    (0 : Int) < sampleParams.days ∧
    (Gen.generate sampleParams T0).1.expires_at =
      Chrono.rfc3339OfEpoch (T0 + sampleParams.days * 86400) ∧
    T0 < T0 + sampleParams.days * 86400 :=
  ⟨by decide,
   (c9_issuance_invariant sampleParams T0 (by decide)).2.1,
   (c9_issuance_invariant sampleParams T0 (by decide)).2.2.1⟩

/-- C2: the validator recomputes the keyed hash of the decoded payload bytes
and compares byte-for-byte: for an artifact whose payload decodes to `p`
(and which reaches the signature check), the result is `InvalidSignature`
iff the signature field differs from `hex(SHA-256(p ‖ secret))`; and an
artifact holding a single-byte change of `p` under the original signature
is rejected as `InvalidSignature` whenever the change alters the keyed hash
(which the witness exhibits on a concrete byte flip). -/
theorem c2_signature_verification :
    (∀ content lf p d now,
       Val.parseLicenseFile content = some lf → lf.version = 1 →
       Base64.base64Decode lf.payload = some p →
       (Val.validate_license (some content) d now = .error .invalidSignature ↔
         lf.signature ≠ Val.compute_signature p)) ∧
    (∀ content lf p i b d now,
       Val.parseLicenseFile content = some lf → lf.version = 1 →
       Base64.base64Decode lf.payload = some (p.set i b) →
       lf.signature = Val.compute_signature p →
       Val.compute_signature (p.set i b) ≠ Val.compute_signature p →
       Val.validate_license (some content) d now = .error .invalidSignature) := by
  constructor
  · intro content lf p d now hp hv hb
    constructor
    · intro hEq
      by_contra hss
      rcases hi : Val.decodeInfo p with _ | info
      · rw [validate_parse_fail content lf p d now hp hv hb hss hi] at hEq
        exact absurd hEq (by simp)
      · by_cases hexp : info.expires_at < now
        · rw [validate_expired content lf p info d now hp hv hb hss hi hexp] at hEq
          exact absurd hEq (by simp)
        · cases d with
          | none =>
              rw [validate_no_domain_ok content lf p info now hp hv hb hss hi hexp] at hEq
              exact absurd hEq (by simp)
          | some dd =>
              by_cases hd : info.domains ≠ [] ∧ dd ∉ info.domains
              · rw [validate_domain_fail content lf p info dd now hp hv hb hss hi hexp hd] at hEq
                exact absurd hEq (by simp)
              · rw [validate_domain_ok content lf p info dd now hp hv hb hss hi hexp hd] at hEq
                exact absurd hEq (by simp)
    · exact validate_sig_fail content lf p d now hp hv hb
  · intro content lf p i b d now hp hv hb hsig hneq
    refine validate_sig_fail content lf (p.set i b) d now hp hv hb ?_
    rw [hsig]
    exact fun h => hneq h.symm

/-- C2 witness: the running example with a wrong signature is rejected, and
so is the artifact holding the payload with byte 0 changed under the
original signature. -/
theorem c2_signature_verification_witness :
    Val.validate_license (some c2BadFile) none T0 = .error .invalidSignature ∧
    Val.validate_license (some c2TamperFile) none T0 = .error .invalidSignature :=
  ⟨(c2_signature_verification.1 c2BadFile
      { version := 1
        payload := Base64.base64Encode samplePayload
        signature := Bytes.ascii "deadbeef" }
      samplePayload none T0 (by decide) (by decide) (by decide)).mpr (by decide),
   c2_signature_verification.2 c2TamperFile
      { version := 1
        payload := Base64.base64Encode c2TamperPayload
        signature := Val.compute_signature samplePayload }
      samplePayload 0 32 none T0 (by decide) (by decide) (by decide) rfl (by decide)⟩

theorem fromBytes_none_of_not_mem (t : List Nat)
    (h : t ∉ [Bytes.ascii "trial", Bytes.ascii "single", Bytes.ascii "multi",
              Bytes.ascii "enterprise", Bytes.ascii "developer"]) :
    Val.LicenseType.fromBytes t = none := by
  simp only [List.mem_cons, List.not_mem_nil, not_or, or_false] at h
  obtain ⟨h1, h2, h3, h4, h5⟩ := h
  simp [Val.LicenseType.fromBytes, h1, h2, h3, h4, h5]

theorem infoFromJson_none_unknown_tier (fields : List (List Nat × Json)) (t : List Nat)
    (hlt : Json.lookupField fields (Bytes.ascii "license_type") = some (.str t))
    (ht : Val.LicenseType.fromBytes t = none) :
    Val.infoFromJson (.obj fields) = none := by
  have hstr : Val.getStr fields (Bytes.ascii "license_type") = some t := by
    unfold Val.getStr
    rw [hlt]
  unfold Val.infoFromJson
  cases h1 : Val.getStr fields (Bytes.ascii "licensee") <;>
    cases h2 : Val.getStr fields (Bytes.ascii "email") <;>
      simp [h1, h2, hstr, ht]

/-- C10: a payload that passes signature verification but whose
`license_type` field is a string outside the five lowercase tier names is
rejected at the payload-parse step with the invalid-license-data error (no
fallback tier is applied) — although the issuer accepts any tier string and
embeds it verbatim in the record. -/
theorem c10_unknown_tier_rejected (content : List Nat) (lf : Val.LicenseFile)
    (p t : List Nat) (d : Option (List Nat)) (now : Int)
    (hp : Val.parseLicenseFile content = some lf) (hv : lf.version = 1)
    (hb : Base64.base64Decode lf.payload = some p)
    (hs : lf.signature = Val.compute_signature p)
    (hpt : Val.payloadTier p = some t)
    (ht : t ∉ [Bytes.ascii "trial", Bytes.ascii "single", Bytes.ascii "multi",
               Bytes.ascii "enterprise", Bytes.ascii "developer"]) :
    Val.validate_license (some content) d now = .error .malformedData ∧
    ∀ (q : Gen.Params) (now2 : Int),
      (Gen.generate q now2).1.license_type = q.license_type := by
  refine ⟨?_, fun q now2 => rfl⟩
  have hi : Val.decodeInfo p = none := by
    unfold Val.payloadTier at hpt
    unfold Val.decodeInfo
    cases hj : Json.jsonParse p with
    | none => rfl
    | some j =>
        rw [hj] at hpt
        cases j with
        | null => exact absurd hpt (by simp)
        | bool bv => exact absurd hpt (by simp)
        | num nv => exact absurd hpt (by simp)
        | str sv => exact absurd hpt (by simp)
        | arr av => exact absurd hpt (by simp)
        | obj fields =>
            show Val.infoFromJson (.obj fields) = none
            have hpt2 : (match Json.lookupField fields (Bytes.ascii "license_type") with
                         | some (Json.str tv) => some tv
                         | _ => none) = some t := hpt
            cases hl : Json.lookupField fields (Bytes.ascii "license_type") with
            | none => rw [hl] at hpt2; exact absurd hpt2 (by simp)
            | some jv =>
                rw [hl] at hpt2
                cases jv with
                | str tv =>
                    have htv : tv = t := by simpa using hpt2
                    subst htv
                    exact infoFromJson_none_unknown_tier fields tv hl
                      (fromBytes_none_of_not_mem tv ht)
                | null => exact absurd hpt2 (by simp)
                | bool bv => exact absurd hpt2 (by simp)
                | num nv => exact absurd hpt2 (by simp)
                | arr av => exact absurd hpt2 (by simp)
                | obj ov => exact absurd hpt2 (by simp)
  exact validate_parse_fail content lf p d now hp hv hb hs hi

/-- C10 witness: the artifact carrying tier string `"gold"`, signed with the
validator's salt, is rejected with the invalid-license-data error. -/
theorem c10_unknown_tier_rejected_witness :
    Val.validate_license (some c10File) none T0 = .error .malformedData :=
  (c10_unknown_tier_rejected c10File
    { version := 1
      payload := Base64.base64Encode c10Payload
      signature := Val.compute_signature c10Payload }
    c10Payload (Bytes.ascii "gold") none T0 (by decide) (by decide) (by decide)
    rfl (by decide) (by decide)).1

/-- C3: the validator runs load, structural parse, version check, payload
decode, signature verification, payload parse, expiry check, domain check
in exactly this order, short-circuiting on the first failure (the trace is
always a prefix of the canonical order and ends at the check whose
classification is returned); in particular the payload is deserialized into
a License Record only on inputs where signature verification has already
succeeded. -/
theorem c3_check_order (f d : Option (List Nat)) (now : Int) :
    (Val.validateTrace f d now).2 = Val.validate_license f d now ∧
    (Val.validateTrace f d now).1 <+: Val.checkOrder ∧
    (∀ e, (Val.validateTrace f d now).2 = .error e →
        (Val.validateTrace f d now).1.getLast? = some (Val.errStep e)) ∧
    (Val.Step.payloadParse ∈ (Val.validateTrace f d now).1 → Val.sigVerified f) := by
  cases f with
  | none =>
      have h1 : Val.validateTrace none d now = ([.load], .error .cannotRead) := rfl
      have h2 : Val.validate_license none d now = .error .cannotRead := rfl
      rw [h1, h2]
      exact ⟨rfl, ⟨_, rfl⟩, fun e he => by injection he with h; subst h; rfl,
             fun hm => by simp at hm⟩
  | some content =>
    cases hp : Val.parseLicenseFile content with
    | none =>
        have h1 : Val.validateTrace (some content) d now =
            ([.load, .structParse], .error .malformedFile) := by
          unfold Val.validateTrace; simp [hp]
        have h2 : Val.validate_license (some content) d now = .error .malformedFile := by
          unfold Val.validate_license; simp [hp]
        rw [h1, h2]
        exact ⟨rfl, ⟨_, rfl⟩, fun e he => by injection he with h; subst h; rfl,
               fun hm => by simp at hm⟩
    | some lf =>
      by_cases hv1 : lf.version = 1
      · cases hb : Base64.base64Decode lf.payload with
        | none =>
            have h1 : Val.validateTrace (some content) d now =
                ([.load, .structParse, .versionCheck, .payloadDecode],
                 .error .invalidPayload) := by
              unfold Val.validateTrace; simp [hp, hv1, hb]
            have h2 : Val.validate_license (some content) d now = .error .invalidPayload := by
              unfold Val.validate_license; simp [hp, hv1, hb]
            rw [h1, h2]
            exact ⟨rfl, ⟨_, rfl⟩, fun e he => by injection he with h; subst h; rfl,
                   fun hm => by simp at hm⟩
        | some p =>
          by_cases hs : lf.signature = Val.compute_signature p
          · cases hi : Val.decodeInfo p with
            | none =>
                have h1 : Val.validateTrace (some content) d now =
                    ([.load, .structParse, .versionCheck, .payloadDecode, .sigVerify,
                      .payloadParse], .error .malformedData) := by
                  unfold Val.validateTrace; simp [hp, hv1, hb, hs, hi]
                have h2 : Val.validate_license (some content) d now =
                    .error .malformedData := by
                  unfold Val.validate_license; simp [hp, hv1, hb, hs, hi]
                rw [h1, h2]
                exact ⟨rfl, ⟨_, rfl⟩,
                       fun e he => by injection he with h; subst h; rfl,
                       fun _ => ⟨content, lf, p, rfl, hp, hv1, hb, hs⟩⟩
            | some info =>
              by_cases hexp : info.expires_at < now
              · have h1 : Val.validateTrace (some content) d now =
                    ([.load, .structParse, .versionCheck, .payloadDecode, .sigVerify,
                      .payloadParse, .expiryCheck], .error (.expired info.expires_at)) := by
                  unfold Val.validateTrace; simp [hp, hv1, hb, hs, hi, hexp]
                have h2 : Val.validate_license (some content) d now =
                    .error (.expired info.expires_at) := by
                  unfold Val.validate_license; simp [hp, hv1, hb, hs, hi, hexp]
                rw [h1, h2]
                exact ⟨rfl, ⟨_, rfl⟩,
                       fun e he => by injection he with h; subst h; rfl,
                       fun _ => ⟨content, lf, p, rfl, hp, hv1, hb, hs⟩⟩
              · cases d with
                | none =>
                    have h1 : Val.validateTrace (some content) none now =
                        (Val.checkOrder, .ok info) := by
                      unfold Val.validateTrace; simp [hp, hv1, hb, hs, hi, hexp]
                    have h2 : Val.validate_license (some content) none now = .ok info := by
                      unfold Val.validate_license; simp [hp, hv1, hb, hs, hi, hexp]
                    rw [h1, h2]
                    exact ⟨rfl, ⟨_, rfl⟩, fun e he => absurd he (by simp),
                           fun _ => ⟨content, lf, p, rfl, hp, hv1, hb, hs⟩⟩
                | some dd =>
                  by_cases hd : info.domains ≠ [] ∧ dd ∉ info.domains
                  · have h1 : Val.validateTrace (some content) (some dd) now =
                        (Val.checkOrder, .error (.domainNotLicensed dd info.domains)) := by
                      unfold Val.validateTrace; simp [hp, hv1, hb, hs, hi, hexp, hd.1, hd.2]
                    have h2 : Val.validate_license (some content) (some dd) now =
                        .error (.domainNotLicensed dd info.domains) := by
                      unfold Val.validate_license; simp [hp, hv1, hb, hs, hi, hexp, hd.1, hd.2]
                    rw [h1, h2]
                    exact ⟨rfl, ⟨_, rfl⟩,
                           fun e he => by injection he with h; subst h; rfl,
                           fun _ => ⟨content, lf, p, rfl, hp, hv1, hb, hs⟩⟩
                  · have h1 : Val.validateTrace (some content) (some dd) now =
                        (Val.checkOrder, .ok info) := by
                      unfold Val.validateTrace
                      simp only [hp, hv1, hb, hs, hi]
                      simp [hexp, hd]
                    have h2 : Val.validate_license (some content) (some dd) now = .ok info := by
                      unfold Val.validate_license
                      simp only [hp, hv1, hb, hs, hi]
                      simp [hexp, hd]
                    rw [h1, h2]
                    exact ⟨rfl, ⟨_, rfl⟩, fun e he => absurd he (by simp),
                           fun _ => ⟨content, lf, p, rfl, hp, hv1, hb, hs⟩⟩
          · have h1 : Val.validateTrace (some content) d now =
                ([.load, .structParse, .versionCheck, .payloadDecode, .sigVerify],
                 .error .invalidSignature) := by
              unfold Val.validateTrace; simp [hp, hv1, hb, hs]
            have h2 : Val.validate_license (some content) d now =
                .error .invalidSignature := by
              unfold Val.validate_license; simp [hp, hv1, hb, hs]
            rw [h1, h2]
            exact ⟨rfl, ⟨_, rfl⟩, fun e he => by injection he with h; subst h; rfl,
                   fun hm => by simp at hm⟩
      · have h1 : Val.validateTrace (some content) d now =
            ([.load, .structParse, .versionCheck],
             .error (.unsupportedVersion lf.version)) := by
          unfold Val.validateTrace; simp [hp, hv1]
        have h2 : Val.validate_license (some content) d now =
            .error (.unsupportedVersion lf.version) := by
          unfold Val.validate_license; simp [hp, hv1]
        rw [h1, h2]
        exact ⟨rfl, ⟨_, rfl⟩, fun e he => by injection he with h; subst h; rfl,
               fun hm => by simp at hm⟩

/-- C3 witness: on the running example the instrumented validator agrees
with `validate_license`, and its trace (which contains the payload-parse
step) certifies that signature verification succeeded first. -/
theorem c3_check_order_witness :
    (Val.validateTrace (some sampleFile) none T0).2 =
      Val.validate_license (some sampleFile) none T0 ∧
    Val.sigVerified (some sampleFile) :=
  ⟨(c3_check_order (some sampleFile) none T0).1,
   (c3_check_order (some sampleFile) none T0).2.2.2 (by decide)⟩

/-- C1: the issuer and the validator do NOT share one secret — the issuer
signs with salt `pfv-license-salt-2025` while the validator verifies with
salt `scc-license-salt-2025` — so validating an artifact produced by the
issuer fails with `InvalidSignature` instead of succeeding, at the default
parameters and at the running example's parameters alike. -/
theorem c1_issue_validate_roundtrip_fails :
    Gen.pfvSalt ≠ Val.sccSalt ∧
    Val.validate_license
        (some (Gen.outputFile (Gen.generate Gen.defaultParams T0).2)) none T0 =
      .error .invalidSignature ∧
    Val.validate_license
        (some (Gen.outputFile (Gen.generate sampleParams T0).2)) none T0 =
      .error .invalidSignature :=
  ⟨by decide, by decide, by decide⟩
